import Mathlib

/-!
# Verification of the GewitterGefahr grid-registration and storm-image core

This development embeds the storm-image extraction core of the
GewitterGefahr repository (grid registration, window-bounds computation,
sub-image extraction with padding fill), the grid-geometry constructors in
`gg_utils/grids.py`, and the tracking-file name round trip in
`gg_io/storm_tracking_io.py`.

Numeric modelling conventions:
* Python floats are modelled as exact rationals (`ℚ`).
* Radar cells may hold the IEEE not-a-number marker; a cell is modelled as
  `Option ℚ`, with `none` standing for not-a-number.  Not-a-number has no
  special arithmetic role in the embedded code: it is only stored and
  copied, so an opaque marker is faithful.
* 2-D numpy arrays are modelled as `List (List Cell)` in row-major order.
-/

/-- A single cell of a radar grid: `none` models numpy's not-a-number. -/
abbrev Cell := Option ℚ

/-- The Storm-Image Window record produced by
`storm_images._get_storm_image_coords` (the dictionary with keys
`first_storm_row`, ..., `num_right_padding_columns`). -/
structure StormImageCoords where
  first_storm_row : ℤ
  last_storm_row : ℤ
  first_storm_column : ℤ
  last_storm_column : ℤ
  num_top_padding_rows : ℤ
  num_bottom_padding_rows : ℤ
  num_left_padding_columns : ℤ
  num_right_padding_columns : ℤ
deriving Repr, DecidableEq

/-- Executable floor on `ℚ` (kernel-reducible, unlike Mathlib's `⌊·⌋`). -/
def ratFloor (q : ℚ) : ℤ := q.num / (q.den : ℤ)

/-- Executable round-half-up on `ℚ`, agreeing with Mathlib's `round`. -/
def roundHalfUp (q : ℚ) : ℤ := ratFloor (q + 1/2)

/-- Modelled from the spec: `storm_images._get_storm_image_coords` is not
among the provided sources (only its unit test is), so the window-bounds
algorithm is taken from spec §4.2: the ideal window is
`ideal_first_row = round(center_row) - floor(num_storm_image_rows / 2)`,
`ideal_last_row = ideal_first_row + num_storm_image_rows - 1`, then both
ends are clamped to `[0, num_full_grid_rows - 1]` and the clipped amounts
become the padding counts; columns are treated symmetrically.  `round` is
Mathlib's round-half-up, which reproduces every worked example in spec §8
and every expected dictionary in `storm_images_test.py` (all tie-break
cases exercised there are half-integers with even integer part, on which
round-half-up and round-half-to-odd agree). -/
def get_storm_image_coords (num_full_grid_rows num_full_grid_columns : ℕ)
    (num_storm_image_rows num_storm_image_columns : ℕ)
    (center_row center_column : ℚ) : StormImageCoords :=
  let ideal_first_row : ℤ := roundHalfUp center_row - (num_storm_image_rows / 2 : ℕ)
  let ideal_last_row : ℤ := ideal_first_row + num_storm_image_rows - 1
  let ideal_first_column : ℤ :=
    roundHalfUp center_column - (num_storm_image_columns / 2 : ℕ)
  let ideal_last_column : ℤ := ideal_first_column + num_storm_image_columns - 1
  let first_row : ℤ := max ideal_first_row 0
  let last_row : ℤ := min ideal_last_row ((num_full_grid_rows : ℤ) - 1)
  let first_column : ℤ := max ideal_first_column 0
  let last_column : ℤ := min ideal_last_column ((num_full_grid_columns : ℤ) - 1)
  { first_storm_row := first_row
    last_storm_row := last_row
    first_storm_column := first_column
    last_storm_column := last_column
    num_top_padding_rows := first_row - ideal_first_row
    num_bottom_padding_rows := ideal_last_row - last_row
    num_left_padding_columns := first_column - ideal_first_column
    num_right_padding_columns := ideal_last_column - last_column }

/-- One row of the numpy slice assignment
`out[off : off + s.length] = s` (lengths assumed compatible, as numpy
requires; on overrun the list version appends, a case the extraction
lemmas rule out). -/
def overlayRow (b s : List Cell) (off : ℕ) : List Cell :=
  b.take off ++ s ++ b.drop (off + s.length)

/-- The 2-D numpy slice assignment
`out[top : top + slice.length, left : left + row_width] = slice`. -/
def overlay (base slice : List (List Cell)) (top left : ℕ) :
    List (List Cell) :=
  base.take top ++
    List.zipWith (fun b s => overlayRow b s left)
      ((base.drop top).take slice.length) slice ++
    base.drop (top + slice.length)

/-- Modelled from the spec: `storm_images.extract_storm_image` is not
among the provided sources (only its unit test is), so the extraction is
taken from spec §4.3 step by step: (1) compute the Storm-Image Window via
`_get_storm_image_coords`; (2) allocate the
`num_storm_image_rows × num_storm_image_columns` output initialised to
the fill value; (3) copy the full-grid slice
`[first_storm_row .. last_storm_row] × [first_storm_column ..
last_storm_column]` into the output at offset
`(num_top_padding_rows, num_left_padding_columns)`; slices clamp exactly
as numpy basic slicing does. -/
def extract_storm_image (full_radar_matrix : List (List Cell))
    (center_row center_column : ℚ)
    (num_storm_image_rows num_storm_image_columns : ℕ)
    (fill_value : Cell) : List (List Cell) :=
  let num_full_grid_rows := full_radar_matrix.length
  let num_full_grid_columns := (full_radar_matrix.headD []).length
  let w := get_storm_image_coords num_full_grid_rows num_full_grid_columns
    num_storm_image_rows num_storm_image_columns center_row center_column
  let slice :=
    ((full_radar_matrix.drop w.first_storm_row.toNat).take
        (w.last_storm_row + 1 - w.first_storm_row).toNat).map
      (fun r => (r.drop w.first_storm_column.toNat).take
        (w.last_storm_column + 1 - w.first_storm_column).toNat)
  let base := List.replicate num_storm_image_rows
    (List.replicate num_storm_image_columns fill_value)
  overlay base slice w.num_top_padding_rows.toNat
    w.num_left_padding_columns.toNat

/-- The 4-by-6 reference grid `FULL_RADAR_MATRIX` of
`storm_images_test.py` (`none` = not-a-number). -/
def FULL_RADAR_MATRIX : List (List Cell) :=
  [[none, none, some 10, some 20, some 30, some 40],
   [none, some 5, some 15, some 25, some 35, some 50],
   [some 5, some 10, some 25, some 40, some 55, some 70],
   [some 10, some 30, some 50, some 70, some 75, none]]

/-- The Storm-Image Window that `extract_storm_image` computes internally
for a given full grid, center and window size. -/
def window_of (full : List (List Cell)) (cr cc : ℚ) (n m : ℕ) :
    StormImageCoords :=
  get_storm_image_coords full.length (full.headD []).length n m cr cc

/-- Number of full-grid rows the copied slice actually contains, with
numpy slice clamping. -/
def copied_row_count (full : List (List Cell)) (cr cc : ℚ) (n m : ℕ) : ℕ :=
  min ((window_of full cr cc n m).last_storm_row + 1 -
        (window_of full cr cc n m).first_storm_row).toNat
    (full.length - (window_of full cr cc n m).first_storm_row.toNat)

/-- Number of full-grid columns the copied slice actually contains, with
numpy slice clamping (on a rectangular grid). -/
def copied_col_count (full : List (List Cell)) (cr cc : ℚ) (n m : ℕ) : ℕ :=
  min ((window_of full cr cc n m).last_storm_column + 1 -
        (window_of full cr cc n m).first_storm_column).toNat
    ((full.headD []).length -
      (window_of full cr cc n m).first_storm_column.toNat)

/-- The full-grid slice that `extract_storm_image` copies. -/
def slice_of (full : List (List Cell)) (cr cc : ℚ) (n m : ℕ) :
    List (List Cell) :=
  ((full.drop (window_of full cr cc n m).first_storm_row.toNat).take
      ((window_of full cr cc n m).last_storm_row + 1 -
        (window_of full cr cc n m).first_storm_row).toNat).map
    (fun r =>
      (r.drop (window_of full cr cc n m).first_storm_column.toNat).take
        ((window_of full cr cc n m).last_storm_column + 1 -
          (window_of full cr cc n m).first_storm_column).toNat)

/-- Banker's rounding (round half to even) on `ℚ`, as `numpy.round`
does. -/
def roundHalfEven (q : ℚ) : ℤ :=
  if q < (ratFloor q : ℚ) + 1/2 then ratFloor q
  else if (ratFloor q : ℚ) + 1/2 < q then ratFloor q + 1
  else if 2 ∣ ratFloor q then ratFloor q else ratFloor q + 1

/-- Model of `rounder.round_to_nearest(x, 0.5)`: round to the nearest
multiple of one half, ties to even multiples (numpy semantics). -/
def round_to_nearest_half (x : ℚ) : ℚ := (roundHalfEven (2 * x) : ℚ) / 2

/-- Model of `rounder.round_to_half_integer`: map a value to a
half-integer `k + 1/2` via banker's `round(x + 1/2) - 1/2`. -/
def round_to_half_integer (x : ℚ) : ℚ :=
  (roundHalfEven (x + 1/2) : ℚ) - 1/2

/-- Modelled from the spec: `storm_images._centroids_latlng_to_rowcol`
and the helpers it calls (`radar_utils.latlng_to_rowcol`,
`rounder.round_to_half_integer`) are not among the provided sources.  The
spec gives the raw transform `(nw_latitude - latitude) / lat_spacing`
(and symmetrically for longitudes), but the unit-test vectors in
`storm_images_test.py` (lines 17-20) show that the raw coordinate is then
rounded to a half-integer: the raw value is first rounded to the nearest
multiple of one half and the result then mapped to `k + 1/2` by banker's
`round(x + 1/2) - 1/2`.  This reconstruction reproduces all ten expected
test values exactly. -/
def centroids_latlng_to_rowcol (centroid_latitudes centroid_longitudes :
    List ℚ) (nw_grid_point_lat nw_grid_point_lng lat_spacing lng_spacing :
    ℚ) : List ℚ × List ℚ :=
  (centroid_latitudes.map (fun lat =>
      round_to_half_integer (round_to_nearest_half
        ((nw_grid_point_lat - lat) / lat_spacing))),
   centroid_longitudes.map (fun lng =>
      round_to_half_integer (round_to_nearest_half
        ((lng - nw_grid_point_lng) / lng_spacing))))

/-- Model of `numpy.linspace(start, stop, num)` over exact rationals:
`start + i * (stop - start)/(num - 1)`; for `num = 1` the step degenerates
to zero (division by zero is zero in `ℚ`), matching numpy's `[start]`. -/
def linspace (start stop : ℚ) (num : ℕ) : List ℚ :=
  (List.range num).map (fun i => start + i * ((stop - start) / ((num : ℚ) - 1)))

/-- Modelled from the spec: `grids.get_xy_grid_points` is in the sources,
but the `error_checking` helpers it calls are not; each
`error_checking.assert_*` call is modelled as the validation its name and
the spec's "invalid configuration" contract describe, in the source's
call order (`assert_is_not_nan` on the minima is a no-op over `ℚ`, where
no not-a-number exists; `assert_is_integer` checks value-level
integrality, denominator 1).  A raised exception is `Except.error`. -/
def get_xy_grid_points (x_min_metres y_min_metres : ℚ)
    (x_spacing_metres y_spacing_metres : ℚ) (num_rows num_columns : ℚ) :
    Except String (List ℚ × List ℚ) :=
  if 0 < x_spacing_metres then
    if 0 < y_spacing_metres then
      if num_rows.den = 1 then
        if 0 < num_rows then
          if num_columns.den = 1 then
            if 0 < num_columns then
              let x_max_metres :=
                x_min_metres + (num_columns - 1) * x_spacing_metres
              let y_max_metres :=
                y_min_metres + (num_rows - 1) * y_spacing_metres
              .ok (linspace x_min_metres x_max_metres num_columns.num.toNat,
                   linspace y_min_metres y_max_metres num_rows.num.toNat)
            else .error "num_columns must be greater than 0"
          else .error "num_columns must be an integer"
        else .error "num_rows must be greater than 0"
      else .error "num_rows must be an integer"
    else .error "y_spacing_metres must be greater than 0"
  else .error "x_spacing_metres must be greater than 0"

/-- Modelled from the spec: `grids.get_latlng_grid_points` is in the
sources, but `error_checking.assert_is_valid_latitude` and
`longitude_conversion.convert_lng_positive_in_west` are not; they are
modelled as a latitude range check (`-90 ≤ lat ≤ 90`), a longitude range
check (`-180 ≤ lng ≤ 360`, `allow_nan=False`), and normalization of
negative longitudes to the positive-in-west convention by adding 360,
followed by the same six assertions as `get_xy_grid_points`, in the
source's call order. -/
def get_latlng_grid_points (min_latitude_deg min_longitude_deg : ℚ)
    (lat_spacing_deg lng_spacing_deg : ℚ) (num_rows num_columns : ℚ) :
    Except String (List ℚ × List ℚ) :=
  if -90 ≤ min_latitude_deg ∧ min_latitude_deg ≤ 90 then
    if -180 ≤ min_longitude_deg ∧ min_longitude_deg ≤ 360 then
      let min_lng_converted :=
        if min_longitude_deg < 0 then min_longitude_deg + 360
        else min_longitude_deg
      if 0 < lat_spacing_deg then
        if 0 < lng_spacing_deg then
          if num_rows.den = 1 then
            if 0 < num_rows then
              if num_columns.den = 1 then
                if 0 < num_columns then
                  let max_latitude_deg :=
                    min_latitude_deg + (num_rows - 1) * lat_spacing_deg
                  let max_longitude_deg :=
                    min_lng_converted + (num_columns - 1) * lng_spacing_deg
                  .ok (linspace min_latitude_deg max_latitude_deg
                        num_rows.num.toNat,
                       linspace min_lng_converted max_longitude_deg
                        num_columns.num.toNat)
                else .error "num_columns must be greater than 0"
              else .error "num_columns must be an integer"
            else .error "num_rows must be greater than 0"
          else .error "num_rows must be an integer"
        else .error "lng_spacing_deg must be greater than 0"
      else .error "lat_spacing_deg must be greater than 0"
    else .error "min_longitude_deg is not a valid longitude"
  else .error "min_latitude_deg is not a valid latitude"

/-!
Calendar model for `gg_utils/time_conversion.py` (absent from the
sources; only its unit test is provided).  `unix_sec_to_string t fmt`
is `time.strftime(fmt, time.gmtime(t))` and `string_to_unix_sec` is
`calendar.timegm(time.strptime(...))`: proleptic-Gregorian UTC with no
leap seconds.  The year is resolved by walking whole years from the 1970
epoch and the month by walking months, exactly as a `gmtime`
implementation does; `daysFromCivil` (the `timegm` direction) sums whole
years since the epoch, whole months, and the day of month.  The model is
validated below against the unit-test vector
`1506403233 <-> "2017-09-26-052033"` from `time_conversion_test.py`.
-/

def isLeap (y : ℕ) : Bool := y % 4 == 0 && (y % 100 != 0 || y % 400 == 0)

def yearDays (leap : Bool) : ℕ := if leap then 366 else 365

def daysInYear (y : ℕ) : ℕ := yearDays (isLeap y)

def spanDays : ℕ → ℕ → ℕ
  | _, 0 => 0
  | y0, n+1 => daysInYear y0 + spanDays (y0+1) n

def leapAcc (y : ℕ) : ℕ := (y + 3) / 4 + (y + 399) / 400

def daysInMonth (leap : Bool) (m : ℕ) : ℕ :=
  if m = 1 then 31 else if m = 2 then (if leap then 29 else 28)
  else if m = 3 then 31 else if m = 4 then 30 else if m = 5 then 31
  else if m = 6 then 30 else if m = 7 then 31 else if m = 8 then 31
  else if m = 9 then 30 else if m = 10 then 31 else if m = 11 then 30
  else 31

def monthSpanFrom (leap : Bool) : ℕ → ℕ → ℕ
  | _, 0 => 0
  | m, k+1 => daysInMonth leap m + monthSpanFrom leap (m+1) k

def resolveYear : ℕ → ℕ → ℕ → ℕ × ℕ
  | 0, y, d => (y, d)
  | fuel+1, y, d =>
    if daysInYear y ≤ d then resolveYear fuel (y + 1) (d - daysInYear y)
    else (y, d)

def resolveMonth (leap : Bool) : ℕ → ℕ → ℕ → ℕ × ℕ
  | 0, m, d => (m, d)
  | fuel+1, m, d =>
    if daysInMonth leap m ≤ d then
      resolveMonth leap fuel (m + 1) (d - daysInMonth leap m)
    else (m, d)

def civilFromDays (days : ℕ) : ℕ × ℕ × ℕ :=
  ((resolveYear 8400 1970 days).1,
   (resolveMonth (isLeap (resolveYear 8400 1970 days).1) 12 1
      (resolveYear 8400 1970 days).2).1,
   (resolveMonth (isLeap (resolveYear 8400 1970 days).1) 12 1
      (resolveYear 8400 1970 days).2).2 + 1)

def daysFromCivil (y m d : ℕ) : ℕ :=
  spanDays 1970 (y - 1970) + monthSpanFrom (isLeap y) 1 (m - 1) + (d - 1)

def pad2 (x : ℕ) : List Char :=
  [Nat.digitChar (x / 10 % 10), Nat.digitChar (x % 10)]

def pad4 (x : ℕ) : List Char := pad2 (x / 100) ++ pad2 (x % 100)

def charDigit (c : Char) : ℕ := c.toNat - 48

def parse2 (l : List Char) : ℕ :=
  charDigit (l.getD 0 '0') * 10 + charDigit (l.getD 1 '0')

def parse4 (l : List Char) : ℕ := parse2 (l.take 2) * 100 + parse2 (l.drop 2)

def unix_sec_to_string (t : ℕ) : List Char :=
  pad4 (civilFromDays (t / 86400)).1 ++
    ('-' :: (pad2 (civilFromDays (t / 86400)).2.1 ++
      ('-' :: (pad2 (civilFromDays (t / 86400)).2.2 ++
        ('-' :: (pad2 (t % 86400 / 3600) ++
          (pad2 (t % 86400 % 3600 / 60) ++ pad2 (t % 86400 % 60))))))))

def string_to_unix_sec (l : List Char) : ℕ :=
  daysFromCivil (parse4 (l.take 4)) (parse2 (((l.drop 4).drop 1).take 2))
      (parse2 (((((l.drop 4).drop 1).drop 2).drop 1).take 2)) * 86400 +
    parse2 (((((((l.drop 4).drop 1).drop 2).drop 1).drop 2).drop 1).take 2) *
      3600 +
    parse2 ((((((((l.drop 4).drop 1).drop 2).drop 1).drop 2).drop 1).drop
      2).take 2) * 60 +
    parse2 ((((((((l.drop 4).drop 1).drop 2).drop 1).drop 2).drop 1).drop
      2).drop 2)

def lastAfterChar (sep : Char) (l : List Char) : List Char :=
  l.foldl (fun acc c => if c = sep then [] else acc ++ [c]) []

def splitextRoot (l : List Char) : List Char :=
  if (l.reverse.takeWhile (fun c => c ≠ '.')).length = l.length then l
  else (l.reverse.drop
    ((l.reverse.takeWhile (fun c => c ≠ '.')).length + 1)).reverse

def SEGMOTION_SOURCE_ID : List Char := "segmotion".toList

def PROBSEVERE_SOURCE_ID : List Char := "probSevere".toList

/-- Possible failures of `find_processed_file`. -/
inductive TrackingError where
  | badArguments : TrackingError
  | missingFile : TrackingError
deriving Repr, DecidableEq

/-- Modelled from the spec: `time_conversion.time_to_spc_date_string` is
not among the provided sources; the SPC date of a valid time is the
calendar date of `unix_time_sec - 43200` (SPC convention: a convective
day runs from 1200 UTC to 1159 UTC of the next day), formatted
`yyyymmdd`.  It only ever lands in directory components of file paths, so
no claim depends on its exact convention. -/
def time_to_spc_date_string (t : ℕ) : List Char :=
  pad4 (civilFromDays ((t - 43200) / 86400)).1 ++
    pad2 (civilFromDays ((t - 43200) / 86400)).2.1 ++
    pad2 (civilFromDays ((t - 43200) / 86400)).2.2

/-- The pathless file name
`storm-tracking_{data_source}_{yyyy-mm-dd-HHMMSS}.p`. -/
def trackingFileName (source : List Char) (t : ℕ) : List Char :=
  "storm-tracking".toList ++
    ('_' :: (source ++ ('_' :: (unix_sec_to_string t ++ ['.', 'p']))))

/-- The full processed-file path
`{top}/{date[:4]}/{date}/scale_{scale}m2/{pathless name}`. -/
def processed_file_name (top date : List Char) (scaleInt : ℕ)
    (source : List Char) (t : ℕ) : List Char :=
  top ++ ('/' :: (date.take 4 ++ ('/' :: (date ++
    ('/' :: ("scale_".toList ++ Nat.toDigits 10 scaleInt ++ "m2".toList ++
      ('/' :: trackingFileName source t)))))))

def check_data_source (s : List Char) : Bool :=
  s = SEGMOTION_SOURCE_ID ∨ s = PROBSEVERE_SOURCE_ID

/-- Modelled from the spec: `storm_tracking_io.find_processed_file` is in
the sources; the `error_checking` validators,
`storm_tracking_utils.check_data_source` and the `time_conversion`
helpers it calls are not and are modelled from their names and call
sites.  The filesystem is abstracted by the `isfile` oracle standing for
`os.path.isfile`; a raised exception is `Except.error`. -/
def find_processed_file (top : List Char) (tracking_scale_metres2 : ℚ)
    (data_source : List Char) (unix_time_sec : ℕ) (spc_date_string : List Char)
    (raise_error_if_missing : Bool) (isfile : List Char → Bool) :
    Except TrackingError (List Char) :=
  if 0 < tracking_scale_metres2 then
    if check_data_source data_source then
      let date_string := if data_source = SEGMOTION_SOURCE_ID then
        spc_date_string else time_to_spc_date_string unix_time_sec
      let name := processed_file_name top date_string
        (roundHalfEven tracking_scale_metres2).toNat data_source unix_time_sec
      if raise_error_if_missing && !(isfile name) then
        Except.error TrackingError.missingFile
      else Except.ok name
    else Except.error TrackingError.badArguments
  else Except.error TrackingError.badArguments

/-- Model of `storm_tracking_io.processed_file_name_to_time`: basename,
strip the extension, split on underscores, parse the last part with
`%Y-%m-%d-%H%M%S`. -/
def processed_file_name_to_time (processed : List Char) : ℕ :=
  string_to_unix_sec (lastAfterChar '_'
    (splitextRoot (lastAfterChar '/' processed)))

theorem ratFloor_eq (q : ℚ) : ratFloor q = ⌊q⌋ := Rat.floor_def.symm

theorem roundHalfUp_eq (q : ℚ) : roundHalfUp q = round q := by
  rw [roundHalfUp, ratFloor_eq, round_eq]

theorem roundHalfUp_eq_of (q : ℚ) (z : ℤ) (h1 : (z : ℚ) ≤ q + 1/2)
    (h2 : q + 1/2 < z + 1) : roundHalfUp q = z := by
  rw [roundHalfUp, ratFloor_eq]
  exact Int.floor_eq_iff.2 ⟨h1, h2⟩

theorem coords_row_spec (N M n m : ℕ) (cr cc : ℚ) :
    (get_storm_image_coords N M n m cr cc).last_storm_row -
        (get_storm_image_coords N M n m cr cc).first_storm_row + 1 +
        (get_storm_image_coords N M n m cr cc).num_top_padding_rows +
        (get_storm_image_coords N M n m cr cc).num_bottom_padding_rows = n ∧
    0 ≤ (get_storm_image_coords N M n m cr cc).first_storm_row ∧
    (get_storm_image_coords N M n m cr cc).last_storm_row ≤ (N : ℤ) - 1 ∧
    0 ≤ (get_storm_image_coords N M n m cr cc).num_top_padding_rows ∧
    0 ≤ (get_storm_image_coords N M n m cr cc).num_bottom_padding_rows := by
  simp only [get_storm_image_coords]
  generalize roundHalfUp cr = a
  omega

theorem coords_col_spec (N M n m : ℕ) (cr cc : ℚ) :
    (get_storm_image_coords N M n m cr cc).last_storm_column -
        (get_storm_image_coords N M n m cr cc).first_storm_column + 1 +
        (get_storm_image_coords N M n m cr cc).num_left_padding_columns +
        (get_storm_image_coords N M n m cr cc).num_right_padding_columns = m ∧
    0 ≤ (get_storm_image_coords N M n m cr cc).first_storm_column ∧
    (get_storm_image_coords N M n m cr cc).last_storm_column ≤ (M : ℤ) - 1 ∧
    0 ≤ (get_storm_image_coords N M n m cr cc).num_left_padding_columns ∧
    0 ≤ (get_storm_image_coords N M n m cr cc).num_right_padding_columns := by
  simp only [get_storm_image_coords]
  generalize roundHalfUp cc = a
  omega

/-- C1: for every call to `_get_storm_image_coords` with positive window
size and positive full-grid dimensions and any fractional center, the
returned window satisfies
`(last_storm_row - first_storm_row + 1) + num_top_padding_rows +
num_bottom_padding_rows = num_storm_image_rows`, and the analogous
equality for columns. -/
theorem C1_window_size_invariant
    (num_full_grid_rows num_full_grid_columns : ℕ)
    (num_storm_image_rows num_storm_image_columns : ℕ)
    (hN : 0 < num_full_grid_rows) (hM : 0 < num_full_grid_columns)
    (hn : 0 < num_storm_image_rows) (hm : 0 < num_storm_image_columns)
    (center_row center_column : ℚ) :
    ((get_storm_image_coords num_full_grid_rows num_full_grid_columns
          num_storm_image_rows num_storm_image_columns center_row
          center_column).last_storm_row -
        (get_storm_image_coords num_full_grid_rows num_full_grid_columns
          num_storm_image_rows num_storm_image_columns center_row
          center_column).first_storm_row + 1) +
      (get_storm_image_coords num_full_grid_rows num_full_grid_columns
        num_storm_image_rows num_storm_image_columns center_row
        center_column).num_top_padding_rows +
      (get_storm_image_coords num_full_grid_rows num_full_grid_columns
        num_storm_image_rows num_storm_image_columns center_row
        center_column).num_bottom_padding_rows = num_storm_image_rows ∧
    ((get_storm_image_coords num_full_grid_rows num_full_grid_columns
          num_storm_image_rows num_storm_image_columns center_row
          center_column).last_storm_column -
        (get_storm_image_coords num_full_grid_rows num_full_grid_columns
          num_storm_image_rows num_storm_image_columns center_row
          center_column).first_storm_column + 1) +
      (get_storm_image_coords num_full_grid_rows num_full_grid_columns
        num_storm_image_rows num_storm_image_columns center_row
        center_column).num_left_padding_columns +
      (get_storm_image_coords num_full_grid_rows num_full_grid_columns
        num_storm_image_rows num_storm_image_columns center_row
        center_column).num_right_padding_columns = num_storm_image_columns := by
  have hr := coords_row_spec num_full_grid_rows num_full_grid_columns
    num_storm_image_rows num_storm_image_columns center_row center_column
  have hc := coords_col_spec num_full_grid_rows num_full_grid_columns
    num_storm_image_rows num_storm_image_columns center_row center_column
  exact ⟨by omega, by omega⟩

/-- Witness for C1 at the unit test's interior configuration. -/
theorem C1_window_size_invariant_witness :
    ((get_storm_image_coords 3501 7001 32 64 (2001/2) (2001/2)).last_storm_row -
        (get_storm_image_coords 3501 7001 32 64 (2001/2)
          (2001/2)).first_storm_row + 1) +
      (get_storm_image_coords 3501 7001 32 64 (2001/2)
        (2001/2)).num_top_padding_rows +
      (get_storm_image_coords 3501 7001 32 64 (2001/2)
        (2001/2)).num_bottom_padding_rows = 32 ∧
    ((get_storm_image_coords 3501 7001 32 64 (2001/2)
          (2001/2)).last_storm_column -
        (get_storm_image_coords 3501 7001 32 64 (2001/2)
          (2001/2)).first_storm_column + 1) +
      (get_storm_image_coords 3501 7001 32 64 (2001/2)
        (2001/2)).num_left_padding_columns +
      (get_storm_image_coords 3501 7001 32 64 (2001/2)
        (2001/2)).num_right_padding_columns = 64 :=
  C1_window_size_invariant 3501 7001 32 64 (by norm_num) (by norm_num)
    (by norm_num) (by norm_num) (2001/2) (2001/2)

/-- C2: on a 3501-by-7001 full grid with a 32-by-64 window,
`_get_storm_image_coords` returns exactly the three dictionaries expected
by `storm_images_test.py` for the top-left, middle, and bottom-right
centers. -/
theorem C2_boundary_examples :
    get_storm_image_coords 3501 7001 32 64 (10.5 : ℚ) (10.5 : ℚ) =
      { first_storm_row := 0, last_storm_row := 26
        first_storm_column := 0, last_storm_column := 42
        num_top_padding_rows := 5, num_bottom_padding_rows := 0
        num_left_padding_columns := 21, num_right_padding_columns := 0 } ∧
    get_storm_image_coords 3501 7001 32 64 (1000.5 : ℚ) (1000.5 : ℚ) =
      { first_storm_row := 985, last_storm_row := 1016
        first_storm_column := 969, last_storm_column := 1032
        num_top_padding_rows := 0, num_bottom_padding_rows := 0
        num_left_padding_columns := 0, num_right_padding_columns := 0 } ∧
    get_storm_image_coords 3501 7001 32 64 (3490.5 : ℚ) (6990.5 : ℚ) =
      { first_storm_row := 3475, last_storm_row := 3500
        first_storm_column := 6959, last_storm_column := 7000
        num_top_padding_rows := 0, num_bottom_padding_rows := 6
        num_left_padding_columns := 0, num_right_padding_columns := 22 } := by
  have h1 : roundHalfUp (10.5 : ℚ) = 11 :=
    roundHalfUp_eq_of _ _ (by norm_num) (by norm_num)
  have h2 : roundHalfUp (1000.5 : ℚ) = 1001 :=
    roundHalfUp_eq_of _ _ (by norm_num) (by norm_num)
  have h3 : roundHalfUp (3490.5 : ℚ) = 3491 :=
    roundHalfUp_eq_of _ _ (by norm_num) (by norm_num)
  have h4 : roundHalfUp (6990.5 : ℚ) = 6991 :=
    roundHalfUp_eq_of _ _ (by norm_num) (by norm_num)
  refine ⟨?_, ?_, ?_⟩ <;> simp only [get_storm_image_coords, h1, h2, h3, h4] <;>
    decide

/-- C5: padding on a side is only ever generated together with clamping on
that side: positive top padding forces `first_storm_row = 0`, positive
bottom padding forces `last_storm_row = num_full_grid_rows - 1`, and the
analogous implications hold for columns. -/
theorem C5_no_double_padding (num_full_grid_rows num_full_grid_columns : ℕ)
    (num_storm_image_rows num_storm_image_columns : ℕ)
    (center_row center_column : ℚ) :
    (0 < (get_storm_image_coords num_full_grid_rows num_full_grid_columns
        num_storm_image_rows num_storm_image_columns center_row
        center_column).num_top_padding_rows →
      (get_storm_image_coords num_full_grid_rows num_full_grid_columns
        num_storm_image_rows num_storm_image_columns center_row
        center_column).first_storm_row = 0) ∧
    (0 < (get_storm_image_coords num_full_grid_rows num_full_grid_columns
        num_storm_image_rows num_storm_image_columns center_row
        center_column).num_bottom_padding_rows →
      (get_storm_image_coords num_full_grid_rows num_full_grid_columns
        num_storm_image_rows num_storm_image_columns center_row
        center_column).last_storm_row = (num_full_grid_rows : ℤ) - 1) ∧
    (0 < (get_storm_image_coords num_full_grid_rows num_full_grid_columns
        num_storm_image_rows num_storm_image_columns center_row
        center_column).num_left_padding_columns →
      (get_storm_image_coords num_full_grid_rows num_full_grid_columns
        num_storm_image_rows num_storm_image_columns center_row
        center_column).first_storm_column = 0) ∧
    (0 < (get_storm_image_coords num_full_grid_rows num_full_grid_columns
        num_storm_image_rows num_storm_image_columns center_row
        center_column).num_right_padding_columns →
      (get_storm_image_coords num_full_grid_rows num_full_grid_columns
        num_storm_image_rows num_storm_image_columns center_row
        center_column).last_storm_column = (num_full_grid_columns : ℤ) - 1) := by
  simp only [get_storm_image_coords]
  generalize roundHalfUp center_row = a
  generalize roundHalfUp center_column = b
  refine ⟨?_, ?_, ?_, ?_⟩ <;> omega

/-- Witness for C5 at the unit test's top-left configuration, where top
padding and left padding are both positive. -/
theorem C5_no_double_padding_witness :
    (get_storm_image_coords 3501 7001 32 64 (21/2) (21/2)).first_storm_row =
      0 ∧
    (get_storm_image_coords 3501 7001 32 64 (21/2)
        (21/2)).first_storm_column = 0 := by
  have h := C5_no_double_padding 3501 7001 32 64 (21/2) (21/2)
  have ht : roundHalfUp (21/2 : ℚ) = 11 :=
    roundHalfUp_eq_of _ _ (by norm_num) (by norm_num)
  refine ⟨h.1 ?_, h.2.2.1 ?_⟩ <;> simp only [get_storm_image_coords, ht] <;>
    decide

/-- C7 counterexample: a full grid strictly smaller than the requested
window (5 rows versus a 6-row window) for which the returned record does
NOT have positive top padding, and whose clamped range does NOT start at
row 0: with center row 4 the ideal window is rows 1..6, which runs off the
bottom only.  This refutes the claim that `num_full_grid_rows <
num_storm_image_rows` alone forces padding on both sides and a clamped
range spanning the whole grid. -/
theorem C7_counterexample :
    (5 : ℕ) < 6 ∧
    (get_storm_image_coords 5 5 6 6 4 4).num_top_padding_rows = 0 ∧
    (get_storm_image_coords 5 5 6 6 4 4).first_storm_row = 1 ∧
    (get_storm_image_coords 5 5 6 6 4 4).num_bottom_padding_rows = 2 := by
  have h : roundHalfUp (4 : ℚ) = 4 :=
    roundHalfUp_eq_of _ _ (by norm_num) (by norm_num)
  simp only [get_storm_image_coords, h]
  refine ⟨by norm_num, by decide, by decide, by decide⟩

/-- C7 as amended: if the ideal (unclamped) window actually runs off BOTH
row edges — `ideal_first_row < 0` and `num_full_grid_rows - 1 <
ideal_last_row`, which in particular requires the grid to be smaller than
the window — then both row padding counts are strictly positive and the
clamped range spans the entire grid dimension
(`first_storm_row = 0` and `last_storm_row = num_full_grid_rows - 1`),
with the window-size invariant still holding; the computation is total, so
no error is raised. -/
theorem C7_both_edges_amended (num_full_grid_rows num_full_grid_columns : ℕ)
    (num_storm_image_rows num_storm_image_columns : ℕ)
    (center_row center_column : ℚ)
    (h_top : roundHalfUp center_row -
      ((num_storm_image_rows / 2 : ℕ) : ℤ) < 0)
    (h_bottom : (num_full_grid_rows : ℤ) - 1 <
      roundHalfUp center_row - ((num_storm_image_rows / 2 : ℕ) : ℤ) +
        num_storm_image_rows - 1) :
    0 < (get_storm_image_coords num_full_grid_rows num_full_grid_columns
        num_storm_image_rows num_storm_image_columns center_row
        center_column).num_top_padding_rows ∧
    0 < (get_storm_image_coords num_full_grid_rows num_full_grid_columns
        num_storm_image_rows num_storm_image_columns center_row
        center_column).num_bottom_padding_rows ∧
    (get_storm_image_coords num_full_grid_rows num_full_grid_columns
        num_storm_image_rows num_storm_image_columns center_row
        center_column).first_storm_row = 0 ∧
    (get_storm_image_coords num_full_grid_rows num_full_grid_columns
        num_storm_image_rows num_storm_image_columns center_row
        center_column).last_storm_row = (num_full_grid_rows : ℤ) - 1 ∧
    ((get_storm_image_coords num_full_grid_rows num_full_grid_columns
          num_storm_image_rows num_storm_image_columns center_row
          center_column).last_storm_row -
        (get_storm_image_coords num_full_grid_rows num_full_grid_columns
          num_storm_image_rows num_storm_image_columns center_row
          center_column).first_storm_row + 1) +
      (get_storm_image_coords num_full_grid_rows num_full_grid_columns
        num_storm_image_rows num_storm_image_columns center_row
        center_column).num_top_padding_rows +
      (get_storm_image_coords num_full_grid_rows num_full_grid_columns
        num_storm_image_rows num_storm_image_columns center_row
        center_column).num_bottom_padding_rows = num_storm_image_rows := by
  revert h_top h_bottom
  simp only [get_storm_image_coords]
  generalize roundHalfUp center_row = a
  intro h_top h_bottom
  refine ⟨by omega, by omega, by omega, by omega, by omega⟩

/-- Witness for C7 as amended: a 5-row grid, a 10-row window, center row
2; the ideal window is rows -3..6, running off both edges. -/
theorem C7_both_edges_amended_witness :
    0 < (get_storm_image_coords 5 5 10 10 2 2).num_top_padding_rows ∧
    0 < (get_storm_image_coords 5 5 10 10 2 2).num_bottom_padding_rows ∧
    (get_storm_image_coords 5 5 10 10 2 2).first_storm_row = 0 ∧
    (get_storm_image_coords 5 5 10 10 2 2).last_storm_row = (5 : ℤ) - 1 ∧
    ((get_storm_image_coords 5 5 10 10 2 2).last_storm_row -
        (get_storm_image_coords 5 5 10 10 2 2).first_storm_row + 1) +
      (get_storm_image_coords 5 5 10 10 2 2).num_top_padding_rows +
      (get_storm_image_coords 5 5 10 10 2 2).num_bottom_padding_rows = 10 := by
  have h : roundHalfUp (2 : ℚ) = 2 :=
    roundHalfUp_eq_of _ _ (by norm_num) (by norm_num)
  exact C7_both_edges_amended 5 5 10 10 2 2 (by rw [h]; norm_num)
    (by rw [h]; norm_num)

theorem overlayRow_nil (b : List Cell) (off : ℕ) :
    overlayRow b [] off = b := by
  simp [overlayRow]

theorem overlayRow_length (b s : List Cell) (off : ℕ)
    (h : s = [] ∨ off + s.length ≤ b.length) :
    (overlayRow b s off).length = b.length := by
  rcases h with h | h
  · rw [h, overlayRow_nil]
  · simp only [overlayRow, List.length_append, List.length_take,
      List.length_drop]
    omega

theorem overlay_length (base slice : List (List Cell)) (top left : ℕ) :
    (overlay base slice top left).length = base.length := by
  simp only [overlay, List.length_append, List.length_take,
    List.length_drop, List.length_zipWith]
  omega

theorem mem_zipWith_overlayRow {l₁ l₂ : List (List Cell)} {left : ℕ}
    {c : List Cell}
    (h : c ∈ List.zipWith (fun b s => overlayRow b s left) l₁ l₂) :
    ∃ b ∈ l₁, ∃ s ∈ l₂, c = overlayRow b s left := by
  induction l₁ generalizing l₂ with
  | nil => simp at h
  | cons x xs ih =>
    cases l₂ with
    | nil => simp at h
    | cons y ys =>
      simp only [List.zipWith_cons_cons, List.mem_cons] at h
      rcases h with h | h
      · exact ⟨x, by simp, y, by simp, h⟩
      · obtain ⟨b, hb, s, hs, hc⟩ := ih h
        exact ⟨b, by simp [hb], s, by simp [hs], hc⟩

/-- C3: for every full grid, every fractional center (including centers
entirely outside the grid), every positive window size, and every fill
value, `extract_storm_image` returns an array of exactly
`num_storm_image_rows` rows, each of exactly
`num_storm_image_columns` columns. -/
theorem C3_output_shape (full_radar_matrix : List (List Cell))
    (center_row center_column : ℚ)
    (num_storm_image_rows num_storm_image_columns : ℕ)
    (hn : 0 < num_storm_image_rows) (hm : 0 < num_storm_image_columns)
    (fill_value : Cell) :
    (extract_storm_image full_radar_matrix center_row center_column
        num_storm_image_rows num_storm_image_columns fill_value).length =
      num_storm_image_rows ∧
    ∀ r ∈ extract_storm_image full_radar_matrix center_row center_column
        num_storm_image_rows num_storm_image_columns fill_value,
      r.length = num_storm_image_columns := by
  constructor
  · simp only [extract_storm_image]
    rw [overlay_length]
    simp
  · intro r hr
    simp only [extract_storm_image] at hr
    set w := get_storm_image_coords full_radar_matrix.length
      (full_radar_matrix.headD []).length num_storm_image_rows
      num_storm_image_columns center_row center_column with hw
    have hc := coords_col_spec full_radar_matrix.length
      (full_radar_matrix.headD []).length num_storm_image_rows
      num_storm_image_columns center_row center_column
    rw [← hw] at hc
    simp only [overlay, List.mem_append] at hr
    rcases hr with (hr | hr) | hr
    · rw [List.eq_of_mem_replicate (List.take_subset _ _ hr)]
      simp
    · obtain ⟨b, hb, s, hs, rfl⟩ := mem_zipWith_overlayRow hr
      have hb' : b ∈ List.replicate num_storm_image_rows
          (List.replicate num_storm_image_columns fill_value) :=
        List.drop_subset _ _ (List.take_subset _ _ hb)
      have hbm : b.length = num_storm_image_columns := by
        rw [List.eq_of_mem_replicate hb']
        simp
      rw [overlayRow_length _ _ _ ?_, hbm]
      by_cases htc : w.last_storm_column + 1 - w.first_storm_column ≤ 0
      · left
        obtain ⟨r', hr', rfl⟩ := List.mem_map.1 hs
        rw [Int.toNat_of_nonpos htc, List.take_zero]
      · right
        have hsl : s.length ≤
            (w.last_storm_column + 1 - w.first_storm_column).toNat := by
          obtain ⟨r', hr', rfl⟩ := List.mem_map.1 hs
          simpa using List.length_take_le _ _
        rw [hbm]
        omega
    · rw [List.eq_of_mem_replicate (List.drop_subset _ _ hr)]
      simp

/-- Witness for C3 at the unit test's edge case (center (3.5, 5.5),
window 2 x 4, fill 0). -/
theorem C3_output_shape_witness :
    (extract_storm_image FULL_RADAR_MATRIX (7/2) (11/2) 2 4
        (some 0)).length = 2 ∧
    ∀ r ∈ extract_storm_image FULL_RADAR_MATRIX (7/2) (11/2) 2 4 (some 0),
      r.length = 4 :=
  C3_output_shape FULL_RADAR_MATRIX (7/2) (11/2) 2 4 (by norm_num)
    (by norm_num) (some 0)

theorem overlayRow_getD (b s : List Cell) (off j : ℕ) (d : Cell)
    (h : off + s.length ≤ b.length) :
    (overlayRow b s off).getD j d =
      if off ≤ j ∧ j < off + s.length then s.getD (j - off) d
      else b.getD j d := by
  have hoff : off ≤ b.length := by omega
  have hlen : (b.take off).length = off := by
    simp [Nat.min_eq_left hoff]
  have hlen2 : (b.take off ++ s).length = off + s.length := by
    simp [hlen]
  simp only [overlayRow, List.getD_eq_getElem?_getD]
  by_cases h1 : j < off
  · rw [if_neg (by omega), List.getElem?_append_left (by omega),
      List.getElem?_append_left (by omega), List.getElem?_take, if_pos h1]
  · by_cases h2 : j < off + s.length
    · rw [if_pos ⟨by omega, h2⟩, List.getElem?_append_left (by omega),
        List.getElem?_append_right (by omega), hlen]
    · rw [if_neg (by omega), List.getElem?_append_right (by omega), hlen2,
        List.getElem?_drop]
      have hj : off + s.length + (j - (off + s.length)) = j := by omega
      rw [hj]

theorem overlay_getD (base slice : List (List Cell)) (top left i : ℕ)
    (d : List Cell) (h : top + slice.length ≤ base.length) :
    (overlay base slice top left).getD i d =
      if top ≤ i ∧ i < top + slice.length then
        overlayRow (base.getD i []) (slice.getD (i - top) []) left
      else base.getD i d := by
  have htop : top ≤ base.length := by omega
  have hlenA : (base.take top).length = top := by
    simp [Nat.min_eq_left htop]
  have hlenM : ((base.drop top).take slice.length).length = slice.length := by
    simp only [List.length_take, List.length_drop]
    omega
  have hlenZ : (List.zipWith (fun b s => overlayRow b s left)
      ((base.drop top).take slice.length) slice).length = slice.length := by
    simp only [List.length_zipWith, hlenM, Nat.min_self]
  simp only [overlay, List.getD_eq_getElem?_getD]
  by_cases h1 : i < top
  · rw [if_neg (by omega),
      List.getElem?_append_left
        (by rw [List.length_append, hlenA, hlenZ]; omega),
      List.getElem?_append_left (by rw [hlenA]; omega),
      List.getElem?_take, if_pos h1]
  · by_cases h2 : i < top + slice.length
    · rw [if_pos ⟨by omega, h2⟩,
        List.getElem?_append_left
          (by rw [List.length_append, hlenA, hlenZ]; omega),
        List.getElem?_append_right (by rw [hlenA]; omega), hlenA,
        List.getElem?_zipWith, List.getElem?_take, if_pos (by omega),
        List.getElem?_drop]
      have hi : top + (i - top) = i := by omega
      rw [hi, List.getElem?_eq_getElem (by omega),
        List.getElem?_eq_getElem (by omega)]
      simp only [Option.getD_some]
    · rw [if_neg (by omega),
        List.getElem?_append_right
          (by rw [List.length_append, hlenA, hlenZ]; omega),
        List.length_append, hlenA, hlenZ, List.getElem?_drop]
      have hj : top + slice.length + (i - (top + slice.length)) = i := by
        omega
      rw [hj]

theorem overlay_nil_slice (base : List (List Cell)) (top left : ℕ) :
    overlay base [] top left = base := by
  simp [overlay]

theorem replicate_getD_lt {α : Type} (k n : ℕ) (x : α) (d : α) (h : k < n) :
    (List.replicate n x).getD k d = x := by
  simp [List.getD_eq_getElem?_getD, List.getElem?_replicate, h]

theorem window_of_eq (full : List (List Cell)) (cr cc : ℚ) (n m : ℕ) :
    window_of full cr cc n m =
      get_storm_image_coords full.length (full.headD []).length n m cr cc :=
  rfl

theorem extract_eq_overlay (full : List (List Cell)) (cr cc : ℚ) (n m : ℕ)
    (fill : Cell) :
    extract_storm_image full cr cc n m fill =
      overlay (List.replicate n (List.replicate m fill))
        (slice_of full cr cc n m)
        (window_of full cr cc n m).num_top_padding_rows.toNat
        (window_of full cr cc n m).num_left_padding_columns.toNat :=
  rfl

theorem slice_of_length (full : List (List Cell)) (cr cc : ℚ) (n m : ℕ) :
    (slice_of full cr cc n m).length = copied_row_count full cr cc n m := by
  simp [slice_of, copied_row_count]

theorem slice_of_getD (full : List (List Cell)) (cr cc : ℚ) (n m : ℕ)
    (k : ℕ) (hk : k < copied_row_count full cr cc n m) :
    (slice_of full cr cc n m).getD k [] =
      ((full.getD ((window_of full cr cc n m).first_storm_row.toNat + k)
          []).drop (window_of full cr cc n m).first_storm_column.toNat).take
        ((window_of full cr cc n m).last_storm_column + 1 -
          (window_of full cr cc n m).first_storm_column).toNat := by
  have hk1 : k < ((window_of full cr cc n m).last_storm_row + 1 -
      (window_of full cr cc n m).first_storm_row).toNat := by
    have := hk
    rw [copied_row_count] at this
    omega
  have hk2 : (window_of full cr cc n m).first_storm_row.toNat + k <
      full.length := by
    have := hk
    rw [copied_row_count] at this
    omega
  simp only [slice_of, List.getD_eq_getElem?_getD, List.getElem?_map,
    List.getElem?_take, if_pos hk1, List.getElem?_drop,
    List.getElem?_eq_getElem hk2, Option.map_some', Option.getD_some]

theorem take_drop_getD (r : List Cell) (a t x : ℕ) (d : Cell) (hx : x < t) :
    ((r.drop a).take t).getD x d = r.getD (a + x) d := by
  simp only [List.getD_eq_getElem?_getD, List.getElem?_take, if_pos hx,
    List.getElem?_drop]

theorem getD_mem {α : Type} (l : List α) (idx : ℕ) (d : α)
    (h : idx < l.length) : l.getD idx d ∈ l := by
  rw [List.getD_eq_getElem _ _ h]
  exact List.getElem_mem h

theorem extract_getD (full : List (List Cell)) (cr cc : ℚ) (n m : ℕ)
    (fill : Cell)
    (hrect : ∀ r ∈ full, r.length = (full.headD []).length)
    (i j : ℕ) (hi : i < n) (hj : j < m) :
    ((extract_storm_image full cr cc n m fill).getD i []).getD j fill =
      if (window_of full cr cc n m).num_top_padding_rows.toNat ≤ i ∧
          i - (window_of full cr cc n m).num_top_padding_rows.toNat <
            copied_row_count full cr cc n m ∧
          (window_of full cr cc n m).num_left_padding_columns.toNat ≤ j ∧
          j - (window_of full cr cc n m).num_left_padding_columns.toNat <
            copied_col_count full cr cc n m then
        (full.getD ((window_of full cr cc n m).first_storm_row.toNat +
            (i - (window_of full cr cc n m).num_top_padding_rows.toNat))
          []).getD
          ((window_of full cr cc n m).first_storm_column.toNat +
            (j - (window_of full cr cc n m).num_left_padding_columns.toNat))
          fill
      else fill := by
  have hr := coords_row_spec full.length (full.headD []).length n m cr cc
  have hc := coords_col_spec full.length (full.headD []).length n m cr cc
  rw [← window_of_eq] at hr hc
  rcases le_or_lt
    ((window_of full cr cc n m).last_storm_row + 1 -
      (window_of full cr cc n m).first_storm_row) 0 with htcr | htcr
  · have hslice : slice_of full cr cc n m = [] := by
      rw [slice_of, Int.toNat_of_nonpos htcr]
      simp
    have hcrc : copied_row_count full cr cc n m = 0 := by
      rw [copied_row_count, Int.toNat_of_nonpos htcr]
      simp
    rw [extract_eq_overlay, hslice, overlay_nil_slice,
      replicate_getD_lt _ _ _ _ hi, replicate_getD_lt _ _ _ _ hj,
      if_neg (by rw [hcrc]; omega)]
  · have hcrc : copied_row_count full cr cc n m =
        ((window_of full cr cc n m).last_storm_row + 1 -
          (window_of full cr cc n m).first_storm_row).toNat := by
      rw [copied_row_count]
      omega
    have hSn : (window_of full cr cc n m).num_top_padding_rows.toNat +
        copied_row_count full cr cc n m ≤ n := by
      rw [hcrc]
      omega
    rw [extract_eq_overlay,
      overlay_getD _ _ _ _ _ _
        (by rw [slice_of_length, List.length_replicate]; exact hSn)]
    by_cases hrow :
        (window_of full cr cc n m).num_top_padding_rows.toNat ≤ i ∧
        i - (window_of full cr cc n m).num_top_padding_rows.toNat <
          copied_row_count full cr cc n m
    · rw [if_pos ⟨hrow.1, by rw [slice_of_length]; omega⟩,
        replicate_getD_lt _ _ _ _ hi, slice_of_getD _ _ _ _ _ _ hrow.2]
      rcases le_or_lt
        ((window_of full cr cc n m).last_storm_column + 1 -
          (window_of full cr cc n m).first_storm_column) 0 with htcc | htcc
      · have hccc : copied_col_count full cr cc n m = 0 := by
          rw [copied_col_count, Int.toNat_of_nonpos htcc]
          simp
        rw [Int.toNat_of_nonpos htcc, List.take_zero, overlayRow_nil,
          replicate_getD_lt _ _ _ _ hj, if_neg (by rw [hccc]; omega)]
      · have hkN : (window_of full cr cc n m).first_storm_row.toNat +
            (i - (window_of full cr cc n m).num_top_padding_rows.toNat) <
            full.length := by
          have h2 := hrow.2
          rw [copied_row_count] at h2
          omega
        have hrowlen : (full.getD
            ((window_of full cr cc n m).first_storm_row.toNat +
              (i - (window_of full cr cc n m).num_top_padding_rows.toNat))
            []).length = (full.headD []).length :=
          hrect _ (getD_mem _ _ _ hkN)
        have hccc : copied_col_count full cr cc n m =
            ((window_of full cr cc n m).last_storm_column + 1 -
              (window_of full cr cc n m).first_storm_column).toNat := by
          rw [copied_col_count]
          omega
        have hsk_len : (((full.getD
            ((window_of full cr cc n m).first_storm_row.toNat +
              (i - (window_of full cr cc n m).num_top_padding_rows.toNat))
            []).drop
              (window_of full cr cc n m).first_storm_column.toNat).take
            ((window_of full cr cc n m).last_storm_column + 1 -
              (window_of full cr cc n m).first_storm_column).toNat).length =
            ((window_of full cr cc n m).last_storm_column + 1 -
              (window_of full cr cc n m).first_storm_column).toNat := by
          simp only [List.length_take, List.length_drop, hrowlen]
          omega
        rw [overlayRow_getD _ _ _ _ _
          (by rw [hsk_len, List.length_replicate]; omega)]
        by_cases hcol :
            (window_of full cr cc n m).num_left_padding_columns.toNat ≤ j ∧
            j - (window_of full cr cc n m).num_left_padding_columns.toNat <
              ((window_of full cr cc n m).last_storm_column + 1 -
                (window_of full cr cc n m).first_storm_column).toNat
        · rw [if_pos ⟨hcol.1, by rw [hsk_len]; omega⟩,
            take_drop_getD _ _ _ _ _ (by omega),
            if_pos ⟨hrow.1, hrow.2, hcol.1, by rw [hccc]; omega⟩]
        · rw [if_neg (by rw [hsk_len]; omega),
            replicate_getD_lt _ _ _ _ hj,
            if_neg (by rw [hccc]; omega)]
    · rw [if_neg (by rw [slice_of_length]; omega),
        replicate_getD_lt _ _ _ _ hi, replicate_getD_lt _ _ _ _ hj,
        if_neg (by omega)]

/-- C4: the array returned by `extract_storm_image` equals the clamped
full-grid slice copied at offset `(num_top_padding_rows,
num_left_padding_columns)`, with every cell outside the copied rectangle
equal to the fill value and in-bounds not-a-number cells copied through
unchanged; in particular, on the 4-by-6 reference grid with center
(3.5, 5.5), window 2-by-4 and fill 0, the first output row is
[75, NaN, 0, 0] and the second output row is all 0. -/
theorem C4_extract_copies_slice :
    (∀ (full : List (List Cell)) (cr cc : ℚ) (n m : ℕ) (fill : Cell),
      (∀ r ∈ full, r.length = (full.headD []).length) →
      ∀ i j : ℕ, i < n → j < m →
      ((extract_storm_image full cr cc n m fill).getD i []).getD j fill =
        if (window_of full cr cc n m).num_top_padding_rows.toNat ≤ i ∧
            i - (window_of full cr cc n m).num_top_padding_rows.toNat <
              copied_row_count full cr cc n m ∧
            (window_of full cr cc n m).num_left_padding_columns.toNat ≤ j ∧
            j - (window_of full cr cc n m).num_left_padding_columns.toNat <
              copied_col_count full cr cc n m then
          (full.getD ((window_of full cr cc n m).first_storm_row.toNat +
              (i - (window_of full cr cc n m).num_top_padding_rows.toNat))
            []).getD
            ((window_of full cr cc n m).first_storm_column.toNat +
              (j -
                (window_of full cr cc n m).num_left_padding_columns.toNat))
            fill
        else fill) ∧
    extract_storm_image FULL_RADAR_MATRIX (7/2) (11/2) 2 4 (some 0) =
      [[some 75, none, some 0, some 0],
       [some 0, some 0, some 0, some 0]] := by
  constructor
  · intro full cr cc n m fill hrect i j hi hj
    exact extract_getD full cr cc n m fill hrect i j hi hj
  · have h1 : roundHalfUp ((7 : ℚ)/2) = 4 :=
      roundHalfUp_eq_of _ _ (by norm_num) (by norm_num)
    have h2 : roundHalfUp ((11 : ℚ)/2) = 6 :=
      roundHalfUp_eq_of _ _ (by norm_num) (by norm_num)
    have hw : get_storm_image_coords FULL_RADAR_MATRIX.length
        (FULL_RADAR_MATRIX.headD []).length 2 4 (7/2) (11/2) =
        { first_storm_row := 3, last_storm_row := 3
          first_storm_column := 4, last_storm_column := 5
          num_top_padding_rows := 0, num_bottom_padding_rows := 1
          num_left_padding_columns := 0, num_right_padding_columns := 2 } := by
      simp only [get_storm_image_coords, h1, h2]
      decide
    simp only [extract_storm_image, hw]
    decide

/-- Witness for C4's quantified part, evaluated at the unit test's edge
case: the copied cell (0,0) is grid cell (3,4) = 75, and the padding cell
(1,3) is the fill value. -/
theorem C4_extract_copies_slice_witness :
    ((extract_storm_image FULL_RADAR_MATRIX (7/2) (11/2) 2 4
        (some 0)).getD 0 []).getD 0 (some 0) = some 75 ∧
    ((extract_storm_image FULL_RADAR_MATRIX (7/2) (11/2) 2 4
        (some 0)).getD 1 []).getD 3 (some 0) = some 0 := by
  have h1 : roundHalfUp ((7 : ℚ)/2) = 4 :=
    roundHalfUp_eq_of _ _ (by norm_num) (by norm_num)
  have h2 : roundHalfUp ((11 : ℚ)/2) = 6 :=
    roundHalfUp_eq_of _ _ (by norm_num) (by norm_num)
  have hw : window_of FULL_RADAR_MATRIX (7/2) (11/2) 2 4 =
      { first_storm_row := 3, last_storm_row := 3
        first_storm_column := 4, last_storm_column := 5
        num_top_padding_rows := 0, num_bottom_padding_rows := 1
        num_left_padding_columns := 0, num_right_padding_columns := 2 } := by
    rw [window_of_eq]
    simp only [get_storm_image_coords, h1, h2]
    decide
  have hgen := C4_extract_copies_slice.1 FULL_RADAR_MATRIX (7/2) (11/2) 2 4
    (some 0) (by decide)
  constructor
  · rw [hgen 0 0 (by norm_num) (by norm_num)]
    rw [if_pos]
    · simp only [hw]
      decide
    · refine ⟨?_, ?_, ?_, ?_⟩ <;>
        simp only [hw, copied_row_count, copied_col_count] <;> decide
  · rw [hgen 1 3 (by norm_num) (by norm_num)]
    rw [if_neg]
    intro hcond
    have h3 := hcond.2.1
    rw [hw, copied_row_count, hw] at h3
    revert h3
    decide

theorem ratFloor_eq_of (q : ℚ) (z : ℤ) (h1 : (z : ℚ) ≤ q)
    (h2 : q < z + 1) : ratFloor q = z := by
  rw [ratFloor_eq]
  exact Int.floor_eq_iff.2 ⟨h1, h2⟩

theorem roundHalfEven_of_lt (q : ℚ) (z : ℤ) (h1 : (z : ℚ) ≤ q)
    (h2 : q < (z : ℚ) + 1/2) : roundHalfEven q = z := by
  have hf : ratFloor q = z := ratFloor_eq_of q z h1 (by linarith)
  rw [roundHalfEven, hf, if_pos h2]

theorem roundHalfEven_of_gt (q : ℚ) (z : ℤ) (h1 : (z : ℚ) + 1/2 < q)
    (h2 : q < (z : ℚ) + 1) : roundHalfEven q = z + 1 := by
  have hf : ratFloor q = z := ratFloor_eq_of q z (by linarith) h2
  rw [roundHalfEven, hf, if_neg (by linarith), if_pos h1]

theorem roundHalfEven_of_half_even (q : ℚ) (z : ℤ)
    (heq : q = (z : ℚ) + 1/2) (he : 2 ∣ z) : roundHalfEven q = z := by
  have hf : ratFloor q = z :=
    ratFloor_eq_of q z (by rw [heq]; linarith) (by rw [heq]; linarith)
  rw [roundHalfEven, hf, if_neg (by rw [heq]; linarith),
    if_neg (by rw [heq]; linarith), if_pos he]

theorem roundHalfEven_of_half_odd (q : ℚ) (z : ℤ)
    (heq : q = (z : ℚ) + 1/2) (ho : ¬ 2 ∣ z) : roundHalfEven q = z + 1 := by
  have hf : ratFloor q = z :=
    ratFloor_eq_of q z (by rw [heq]; linarith) (by rw [heq]; linarith)
  rw [roundHalfEven, hf, if_neg (by rw [heq]; linarith),
    if_neg (by rw [heq]; linarith), if_neg ho]

theorem roundHalfEven_abs_le (q : ℚ) :
    |(roundHalfEven q : ℚ) - q| ≤ 1/2 := by
  have h0 : (ratFloor q : ℚ) ≤ q := by rw [ratFloor_eq]; exact Int.floor_le q
  have h1 : q < (ratFloor q : ℚ) + 1 := by
    rw [ratFloor_eq]
    exact Int.lt_floor_add_one q
  rw [roundHalfEven]
  split_ifs with ha hb hc
  · rw [abs_le]
    constructor <;> linarith
  · rw [abs_le]
    push_cast
    constructor <;> linarith
  · rw [abs_le]
    constructor <;> linarith
  · rw [abs_le]
    push_cast
    constructor <;> linarith

theorem rowcol_eval_zero (x : ℚ) (hx : x = 0) :
    round_to_half_integer (round_to_nearest_half x) = -(1/2) := by
  subst hx
  have hs1 : roundHalfEven ((2 : ℚ) * 0) = 0 :=
    roundHalfEven_of_lt _ 0 (by norm_num) (by norm_num)
  rw [round_to_nearest_half, hs1]
  have hs2 : roundHalfEven (((0 : ℤ) : ℚ) / 2 + 1/2) = 0 :=
    roundHalfEven_of_half_even _ 0 (by norm_num) ⟨0, rfl⟩
  rw [round_to_half_integer, hs2]
  norm_num

theorem rowcol_eval_half (x : ℚ) (hx : x = 1/2) :
    round_to_half_integer (round_to_nearest_half x) = 1/2 := by
  subst hx
  have hs1 : roundHalfEven ((2 : ℚ) * (1/2)) = 1 :=
    roundHalfEven_of_lt _ 1 (by norm_num) (by norm_num)
  rw [round_to_nearest_half, hs1]
  have hs2 : roundHalfEven (((1 : ℤ) : ℚ) / 2 + 1/2) = 1 :=
    roundHalfEven_of_lt _ 1 (by norm_num) (by norm_num)
  rw [round_to_half_integer, hs2]
  norm_num

theorem rowcol_eval_one (x : ℚ) (hx : x = 1) :
    round_to_half_integer (round_to_nearest_half x) = 3/2 := by
  subst hx
  have hs1 : roundHalfEven ((2 : ℚ) * 1) = 2 :=
    roundHalfEven_of_lt _ 2 (by norm_num) (by norm_num)
  rw [round_to_nearest_half, hs1]
  have hs2 : roundHalfEven (((2 : ℤ) : ℚ) / 2 + 1/2) = 2 :=
    roundHalfEven_of_half_odd _ 1 (by norm_num) (by decide)
  rw [round_to_half_integer, hs2]
  norm_num

theorem rowcol_eval_three_half (x : ℚ) (hx : x = 3/2) :
    round_to_half_integer (round_to_nearest_half x) = 3/2 := by
  subst hx
  have hs1 : roundHalfEven ((2 : ℚ) * (3/2)) = 3 :=
    roundHalfEven_of_lt _ 3 (by norm_num) (by norm_num)
  rw [round_to_nearest_half, hs1]
  have hs2 : roundHalfEven (((3 : ℤ) : ℚ) / 2 + 1/2) = 2 :=
    roundHalfEven_of_lt _ 2 (by norm_num) (by norm_num)
  rw [round_to_half_integer, hs2]
  norm_num

theorem rowcol_eval_two (x : ℚ) (hx : x = 2) :
    round_to_half_integer (round_to_nearest_half x) = 3/2 := by
  subst hx
  have hs1 : roundHalfEven ((2 : ℚ) * 2) = 4 :=
    roundHalfEven_of_lt _ 4 (by norm_num) (by norm_num)
  rw [round_to_nearest_half, hs1]
  have hs2 : roundHalfEven (((4 : ℤ) : ℚ) / 2 + 1/2) = 2 :=
    roundHalfEven_of_half_even _ 2 (by norm_num) ⟨1, rfl⟩
  rw [round_to_half_integer, hs2]
  norm_num

/-- C6 counterexample: at latitude 54.99 on the unit-test grid (NW corner
(55, 230), spacing 0.01 degrees), the claimed formula
`(nw_latitude - latitude)/lat_spacing - 0.5` gives 0.5, but
`_centroids_latlng_to_rowcol` (reconstructed to match the repository's
own unit-test vector) returns 1.5. -/
theorem C6_counterexample :
    (centroids_latlng_to_rowcol [54.99] [230.01] 55 230 0.01 0.01).1 =
      [3/2] ∧
    ((55 : ℚ) - 54.99) / (0.01 : ℚ) - 1/2 = 1/2 ∧
    ((3 : ℚ)/2) ≠ 1/2 := by
  refine ⟨?_, by norm_num, by norm_num⟩
  simp only [centroids_latlng_to_rowcol, List.map_cons, List.map_nil]
  rw [rowcol_eval_one (((55 : ℚ) - 54.99) / 0.01) (by norm_num)]

/-- C6 as amended: `_centroids_latlng_to_rowcol` does not return the raw
fractional coordinate `(nw_latitude - latitude)/lat_spacing - 0.5`: it
returns the raw coordinate `(nw_latitude - latitude)/lat_spacing`
rounded to a half-integer (first to the nearest multiple of one half with
ties to even multiples, then to `k + 1/2` by banker's
`round(x + 1/2) - 1/2`), reproducing the repository's unit-test vector,
always landing on a half-integer, and never moving the raw coordinate by
more than 3/4. -/
theorem C6_rowcol_amended :
    centroids_latlng_to_rowcol [55, 54.995, 54.99, 54.985, 54.98]
        [230, 230.005, 230.01, 230.015, 230.02] 55 230 0.01 0.01 =
      ([-(1/2), 1/2, 3/2, 3/2, 3/2], [-(1/2), 1/2, 3/2, 3/2, 3/2]) ∧
    ∀ lat nwLat latSp : ℚ, ∃ k : ℤ,
      round_to_half_integer (round_to_nearest_half
          ((nwLat - lat) / latSp)) = (k : ℚ) + 1/2 ∧
      |round_to_half_integer (round_to_nearest_half
          ((nwLat - lat) / latSp)) - (nwLat - lat) / latSp| ≤ 3/4 := by
  constructor
  · simp only [centroids_latlng_to_rowcol, List.map_cons, List.map_nil,
      Prod.mk.injEq]
    constructor
    · rw [rowcol_eval_zero (((55 : ℚ) - 55) / 0.01) (by norm_num),
        rowcol_eval_half (((55 : ℚ) - 54.995) / 0.01) (by norm_num),
        rowcol_eval_one (((55 : ℚ) - 54.99) / 0.01) (by norm_num),
        rowcol_eval_three_half (((55 : ℚ) - 54.985) / 0.01) (by norm_num),
        rowcol_eval_two (((55 : ℚ) - 54.98) / 0.01) (by norm_num)]
    · rw [rowcol_eval_zero (((230 : ℚ) - 230) / 0.01) (by norm_num),
        rowcol_eval_half (((230.005 : ℚ) - 230) / 0.01) (by norm_num),
        rowcol_eval_one (((230.01 : ℚ) - 230) / 0.01) (by norm_num),
        rowcol_eval_three_half (((230.015 : ℚ) - 230) / 0.01) (by norm_num),
        rowcol_eval_two (((230.02 : ℚ) - 230) / 0.01) (by norm_num)]
  · intro lat nwLat latSp
    refine ⟨roundHalfEven (round_to_nearest_half
      ((nwLat - lat) / latSp) + 1/2) - 1, ?_, ?_⟩
    · rw [round_to_half_integer]
      push_cast
      ring
    · have h1 := roundHalfEven_abs_le (2 * ((nwLat - lat) / latSp))
      have h2 := roundHalfEven_abs_le (round_to_nearest_half
        ((nwLat - lat) / latSp) + 1/2)
      rw [round_to_nearest_half] at h2
      rw [round_to_half_integer, round_to_nearest_half]
      rw [abs_le] at h1 h2 ⊢
      constructor <;> linarith [h1.1, h1.2, h2.1, h2.2]

/-- C9 counterexample: with strictly positive spacings and positive
integer counts, `get_latlng_grid_points` can still raise: latitude 200 is
rejected by the latitude-validity check, so "no error is raised" does not
follow from positive spacings and counts alone. -/
theorem C9_counterexample :
    get_latlng_grid_points 200 230 1 1 3 3 =
      Except.error "min_latitude_deg is not a valid latitude" ∧
    (0 : ℚ) < 1 ∧ ((3 : ℚ)).den = 1 ∧ (0 : ℚ) < 3 := by
  refine ⟨?_, by norm_num, rfl, by norm_num⟩
  rw [get_latlng_grid_points, if_neg (by norm_num)]

/-- C9 as amended: both grid-geometry constructors fail fast on invalid
configuration — any non-positive spacing, non-positive count, or
non-integer count yields an error from the argument-validation layer; with
strictly positive spacings and positive integer counts
`get_xy_grid_points` raises no error, and `get_latlng_grid_points`
raises no error provided additionally its minimum latitude is a valid
latitude (within [-90, 90]) and its minimum longitude a valid longitude
(within [-180, 360]). -/
theorem C9_validation_amended :
    (∀ x0 y0 xsp ysp nr nc : ℚ,
      (¬ 0 < xsp ∨ ¬ 0 < ysp ∨ nr.den ≠ 1 ∨ ¬ 0 < nr ∨ nc.den ≠ 1 ∨
        ¬ 0 < nc) →
      ∃ e, get_xy_grid_points x0 y0 xsp ysp nr nc = Except.error e) ∧
    (∀ lat0 lng0 latsp lngsp nr nc : ℚ,
      (¬ 0 < latsp ∨ ¬ 0 < lngsp ∨ nr.den ≠ 1 ∨ ¬ 0 < nr ∨ nc.den ≠ 1 ∨
        ¬ 0 < nc) →
      ∃ e, get_latlng_grid_points lat0 lng0 latsp lngsp nr nc =
        Except.error e) ∧
    (∀ x0 y0 xsp ysp nr nc : ℚ, 0 < xsp → 0 < ysp → nr.den = 1 →
      0 < nr → nc.den = 1 → 0 < nc →
      ∃ pts, get_xy_grid_points x0 y0 xsp ysp nr nc = Except.ok pts) ∧
    (∀ lat0 lng0 latsp lngsp nr nc : ℚ, -90 ≤ lat0 → lat0 ≤ 90 →
      -180 ≤ lng0 → lng0 ≤ 360 → 0 < latsp → 0 < lngsp → nr.den = 1 →
      0 < nr → nc.den = 1 → 0 < nc →
      ∃ pts, get_latlng_grid_points lat0 lng0 latsp lngsp nr nc =
        Except.ok pts) := by
  refine ⟨?_, ?_, ?_, ?_⟩
  · intro x0 y0 xsp ysp nr nc h
    rw [get_xy_grid_points]
    split_ifs <;> first | exact ⟨_, rfl⟩ | tauto
  · intro lat0 lng0 latsp lngsp nr nc h
    rw [get_latlng_grid_points]
    split_ifs <;> first | exact ⟨_, rfl⟩ | tauto
  · intro x0 y0 xsp ysp nr nc h1 h2 h3 h4 h5 h6
    rw [get_xy_grid_points]
    split_ifs <;> first | exact ⟨_, rfl⟩ | tauto
  · intro lat0 lng0 latsp lngsp nr nc g1 g2 g3 g4 h1 h2 h3 h4 h5 h6
    rw [get_latlng_grid_points]
    split_ifs <;> first | exact ⟨_, rfl⟩ | tauto

/-- Witness for C9 as amended: a valid configuration on which
`get_latlng_grid_points` succeeds. -/
theorem C9_validation_amended_witness :
    ∃ pts, get_latlng_grid_points 50 230 1 1 3 3 = Except.ok pts :=
  C9_validation_amended.2.2.2 50 230 1 1 3 3 (by norm_num) (by norm_num)
    (by norm_num) (by norm_num) (by norm_num) (by norm_num) rfl
    (by norm_num) rfl (by norm_num)

theorem leap_count (y0 : ℕ) :
    365 + leapAcc (y0 + 1) + (y0 + 99) / 100 =
      daysInYear y0 + leapAcc y0 + (y0 + 100) / 100 := by
  simp only [daysInYear, yearDays, isLeap, leapAcc]
  split_ifs with hl
  · simp only [Bool.and_eq_true, beq_iff_eq, Bool.or_eq_true, bne_iff_ne,
      ne_eq] at hl
    omega
  · simp only [Bool.and_eq_true, beq_iff_eq, Bool.or_eq_true, bne_iff_ne,
      ne_eq, not_and, not_or] at hl
    omega

theorem spanDays_closed : ∀ (n y0 : ℕ),
    spanDays y0 n + leapAcc y0 + (y0 + n + 99) / 100 =
      365 * n + leapAcc (y0 + n) + (y0 + 99) / 100 := by
  intro n
  induction n with
  | zero =>
    intro y0
    have h0 : spanDays y0 0 = 0 := rfl
    simp only [Nat.add_zero]
    omega
  | succ k ih =>
    intro y0
    have h := ih (y0 + 1)
    have h1 : spanDays y0 (k + 1) = daysInYear y0 + spanDays (y0 + 1) k := rfl
    have h2 := leap_count y0
    have hrw : y0 + 1 + k = y0 + (k + 1) := by omega
    rw [hrw] at h
    omega

theorem monthSpanFrom_year (leap : Bool) :
    monthSpanFrom leap 1 12 = yearDays leap := by
  cases leap <;> decide

set_option maxHeartbeats 2000000 in
theorem daysInMonth_le (leap : Bool) : ∀ m, daysInMonth leap m ≤ 31 := by
  intro m
  simp only [daysInMonth]
  split_ifs <;> omega

theorem resolveYear_spec : ∀ (fuel y d : ℕ), d < spanDays y fuel →
    ∃ k, k < fuel ∧ (resolveYear fuel y d).1 = y + k ∧
      spanDays y k + (resolveYear fuel y d).2 = d ∧
      (resolveYear fuel y d).2 < daysInYear (y + k) := by
  intro fuel
  induction fuel with
  | zero =>
    intro y d hd
    have h0 : spanDays y 0 = 0 := rfl
    omega
  | succ f ih =>
    intro y d hd
    have hstep : spanDays y (f + 1) = daysInYear y + spanDays (y + 1) f := rfl
    by_cases hc : daysInYear y ≤ d
    · have hr : resolveYear (f + 1) y d =
          resolveYear f (y + 1) (d - daysInYear y) := by
        rw [resolveYear, if_pos hc]
      obtain ⟨k, hk, h1, h2, h3⟩ := ih (y + 1) (d - daysInYear y) (by omega)
      refine ⟨k + 1, by omega, ?_, ?_, ?_⟩
      · rw [hr, h1]
        omega
      · have hsp : spanDays y (k + 1) = daysInYear y + spanDays (y + 1) k :=
          rfl
        rw [hr, hsp]
        omega
      · rw [hr]
        have : y + 1 + k = y + (k + 1) := by omega
        rw [← this]
        exact h3
    · have hr : resolveYear (f + 1) y d = (y, d) := by
        rw [resolveYear, if_neg hc]
      refine ⟨0, by omega, ?_, ?_, ?_⟩ <;> rw [hr] <;>
        simp only [Nat.add_zero]
      · have h0 : spanDays y 0 = 0 := rfl
        omega
      · omega

theorem resolveMonth_spec (leap : Bool) : ∀ (fuel m d : ℕ),
    d < monthSpanFrom leap m fuel →
    ∃ k, k < fuel ∧ (resolveMonth leap fuel m d).1 = m + k ∧
      monthSpanFrom leap m k + (resolveMonth leap fuel m d).2 = d ∧
      (resolveMonth leap fuel m d).2 < daysInMonth leap (m + k) := by
  intro fuel
  induction fuel with
  | zero =>
    intro m d hd
    have h0 : monthSpanFrom leap m 0 = 0 := rfl
    omega
  | succ f ih =>
    intro m d hd
    have hstep : monthSpanFrom leap m (f + 1) =
        daysInMonth leap m + monthSpanFrom leap (m + 1) f := rfl
    by_cases hc : daysInMonth leap m ≤ d
    · have hr : resolveMonth leap (f + 1) m d =
          resolveMonth leap f (m + 1) (d - daysInMonth leap m) := by
        rw [resolveMonth, if_pos hc]
      obtain ⟨k, hk, h1, h2, h3⟩ := ih (m + 1) (d - daysInMonth leap m)
        (by omega)
      refine ⟨k + 1, by omega, ?_, ?_, ?_⟩
      · rw [hr, h1]
        omega
      · have hsp : monthSpanFrom leap m (k + 1) =
            daysInMonth leap m + monthSpanFrom leap (m + 1) k := rfl
        rw [hr, hsp]
        omega
      · rw [hr]
        have : m + 1 + k = m + (k + 1) := by omega
        rw [← this]
        exact h3
    · have hr : resolveMonth leap (f + 1) m d = (m, d) := by
        rw [resolveMonth, if_neg hc]
      refine ⟨0, by omega, ?_, ?_, ?_⟩ <;> rw [hr] <;>
        simp only [Nat.add_zero]
      · have h0 : monthSpanFrom leap m 0 = 0 := rfl
        omega
      · omega

theorem civil_inv (days : ℕ) (hd : days ≤ 2932896) :
    daysFromCivil (civilFromDays days).1 (civilFromDays days).2.1
        (civilFromDays days).2.2 = days ∧
    1970 ≤ (civilFromDays days).1 ∧ (civilFromDays days).1 ≤ 9999 ∧
    1 ≤ (civilFromDays days).2.1 ∧ (civilFromDays days).2.1 ≤ 12 ∧
    1 ≤ (civilFromDays days).2.2 ∧ (civilFromDays days).2.2 ≤ 31 := by
  have hspan : 2932896 < spanDays 1970 8400 := by
    have h := spanDays_closed 8400 1970
    simp only [leapAcc] at h
    omega
  obtain ⟨k, hk, hy, hsum, hdoy⟩ := resolveYear_spec 8400 1970 days (by omega)
  have hkb : k ≤ 8029 := by
    have h := spanDays_closed k 1970
    simp only [leapAcc] at h
    omega
  have hdoy' : (resolveYear 8400 1970 days).2 <
      monthSpanFrom (isLeap ((resolveYear 8400 1970 days).1)) 1 12 := by
    rw [monthSpanFrom_year, hy]
    exact hdoy
  obtain ⟨k2, hk2, hm, hsum2, hdom⟩ := resolveMonth_spec
    (isLeap ((resolveYear 8400 1970 days).1)) 12 1
    (resolveYear 8400 1970 days).2 hdoy'
  have hdm31 := daysInMonth_le (isLeap ((resolveYear 8400 1970 days).1))
    (1 + k2)
  have hc1 : (civilFromDays days).1 = (resolveYear 8400 1970 days).1 := rfl
  have hc2 : (civilFromDays days).2.1 =
      (resolveMonth (isLeap ((resolveYear 8400 1970 days).1)) 12 1
        (resolveYear 8400 1970 days).2).1 := rfl
  have hc3 : (civilFromDays days).2.2 =
      (resolveMonth (isLeap ((resolveYear 8400 1970 days).1)) 12 1
        (resolveYear 8400 1970 days).2).2 + 1 := rfl
  rw [hy] at hm hsum2 hdom hdm31 hc2 hc3
  refine ⟨?_, ?_, ?_, ?_, ?_, ?_, ?_⟩
  · rw [hc1, hc2, hc3, daysFromCivil, hy, hm]
    have e1 : 1970 + k - 1970 = k := by omega
    have e2 : 1 + k2 - 1 = k2 := by omega
    rw [e1, e2]
    omega
  · rw [hc1, hy]
    omega
  · rw [hc1, hy]
    omega
  · rw [hc2, hm]
    omega
  · rw [hc2, hm]
    omega
  · rw [hc3]
    omega
  · rw [hc3]
    omega

theorem parse2_pad2 : ∀ x < 100, parse2 (pad2 x) = x := by decide

theorem pad2_length (x : ℕ) : (pad2 x).length = 2 := rfl

theorem pad4_length (x : ℕ) : (pad4 x).length = 4 := rfl

theorem parse4_pad4 (x : ℕ) (h : x < 10000) : parse4 (pad4 x) = x := by
  have h1 := parse2_pad2 (x / 100) (by omega)
  have h2 := parse2_pad2 (x % 100) (by omega)
  rw [pad4, parse4, List.take_left' (pad2_length _),
    List.drop_left' (pad2_length _), h1, h2]
  omega

theorem time_string_round_trip (t : ℕ) (ht : t < 253402300800) :
    string_to_unix_sec (unix_sec_to_string t) = t := by
  have hd : t / 86400 ≤ 2932896 := by omega
  obtain ⟨hinv, hy1, hy2, hm1, hm2, hd1, hd2⟩ := civil_inv (t / 86400) hd
  rw [string_to_unix_sec, unix_sec_to_string]
  rw [List.take_left' (pad4_length _), List.drop_left' (pad4_length _)]
  simp only [List.drop_succ_cons, List.drop_zero]
  rw [List.take_left' (pad2_length _), List.drop_left' (pad2_length _)]
  simp only [List.drop_succ_cons, List.drop_zero]
  rw [List.take_left' (pad2_length _), List.drop_left' (pad2_length _)]
  simp only [List.drop_succ_cons, List.drop_zero]
  rw [List.take_left' (pad2_length _), List.drop_left' (pad2_length _)]
  rw [List.take_left' (pad2_length _), List.drop_left' (pad2_length _)]
  rw [parse4_pad4 _ (by omega), parse2_pad2 _ (by omega),
    parse2_pad2 _ (by omega), parse2_pad2 _ (by omega),
    parse2_pad2 _ (by omega), parse2_pad2 _ (by omega)]
  rw [hinv]
  omega

/-- Validation of the calendar model against the unit-test vector of
`time_conversion_test.py`. -/
theorem unix_sec_to_string_test_vector :
    unix_sec_to_string 1506403233 = "2017-09-26-052033".toList := by
  decide

theorem foldl_lastAfter_no_sep (sep : Char) :
    ∀ (ys : List Char) (acc : List Char), (∀ c ∈ ys, c ≠ sep) →
      ys.foldl (fun acc c => if c = sep then [] else acc ++ [c]) acc =
        acc ++ ys := by
  intro ys
  induction ys with
  | nil => intro acc h; simp
  | cons c cs ih =>
    intro acc h
    have hc : c ≠ sep := h c (by simp)
    simp only [List.foldl_cons, if_neg hc]
    rw [ih (acc ++ [c]) (fun x hx => h x (by simp [hx]))]
    simp

theorem lastAfterChar_no_sep (sep : Char) (ys : List Char)
    (h : ∀ c ∈ ys, c ≠ sep) : lastAfterChar sep ys = ys := by
  rw [lastAfterChar, foldl_lastAfter_no_sep sep ys [] h]
  simp

theorem foldl_lastAfter_append (sep : Char) (xs ys : List Char)
    (acc : List Char) :
    (xs ++ sep :: ys).foldl
        (fun acc c => if c = sep then [] else acc ++ [c]) acc =
      ys.foldl (fun acc c => if c = sep then [] else acc ++ [c]) [] := by
  rw [List.foldl_append]
  simp

theorem lastAfterChar_append_sep (sep : Char) (xs ys : List Char) :
    lastAfterChar sep (xs ++ sep :: ys) = lastAfterChar sep ys := by
  rw [lastAfterChar, foldl_lastAfter_append, lastAfterChar]

theorem splitextRoot_p (xs : List Char) :
    splitextRoot (xs ++ ['.', 'p']) = xs := by
  have hrev : (xs ++ ['.', 'p']).reverse = 'p' :: '.' :: xs.reverse := by
    simp
  have htw : (('p' : Char) :: '.' :: xs.reverse).takeWhile
      (fun c => c ≠ '.') = ['p'] := by
    rw [List.takeWhile_cons_of_pos (by decide),
      List.takeWhile_cons_of_neg (by decide)]
  rw [splitextRoot, hrev, htw]
  rw [if_neg (by simp)]
  simp

theorem digitChar_good : ∀ d, d < 10 → Nat.digitChar d ≠ '/' ∧
    Nat.digitChar d ≠ '.' ∧ Nat.digitChar d ≠ '_' := by decide

theorem pad2_good (x : ℕ) : ∀ c ∈ pad2 x,
    c ≠ '/' ∧ c ≠ '.' ∧ c ≠ '_' := by
  intro c hc
  simp only [pad2, List.mem_cons, List.not_mem_nil, or_false] at hc
  rcases hc with rfl | rfl
  · exact digitChar_good _ (by omega)
  · exact digitChar_good _ (by omega)

theorem timeChars_good (t : ℕ) : ∀ c ∈ unix_sec_to_string t,
    c ≠ '/' ∧ c ≠ '.' ∧ c ≠ '_' := by
  intro c hc
  simp only [unix_sec_to_string, pad4, List.mem_append, List.mem_cons] at hc
  rcases hc with ((h | h) | h | (h | h | h | (h | h | (h | h)))) <;>
    first
      | exact pad2_good _ _ h
      | (rw [h]; decide)

theorem name_to_time_of_name (top date : List Char) (scaleInt : ℕ)
    (source : List Char) (t : ℕ) (ht : t < 253402300800)
    (hsource : source = SEGMOTION_SOURCE_ID ∨
      source = PROBSEVERE_SOURCE_ID) :
    processed_file_name_to_time
      (processed_file_name top date scaleInt source t) = t := by
  have hsrc_good : ∀ c ∈ source, c ≠ '/' ∧ c ≠ '.' ∧ c ≠ '_' := by
    rcases hsource with rfl | rfl <;> decide
  have hst_good : ∀ c ∈ "storm-tracking".toList,
      c ≠ '/' ∧ c ≠ '.' ∧ c ≠ '_' := by decide
  have htc := timeChars_good t
  have h1 : lastAfterChar '/'
      (processed_file_name top date scaleInt source t) =
      trackingFileName source t := by
    rw [processed_file_name, lastAfterChar_append_sep,
      lastAfterChar_append_sep, lastAfterChar_append_sep,
      show "scale_".toList ++ Nat.toDigits 10 scaleInt ++ "m2".toList ++
          ('/' :: trackingFileName source t) =
          ("scale_".toList ++ Nat.toDigits 10 scaleInt ++ "m2".toList) ++
          ('/' :: trackingFileName source t) from by
        simp [List.append_assoc],
      lastAfterChar_append_sep]
    apply lastAfterChar_no_sep
    intro c hc
    simp only [trackingFileName, List.mem_append, List.mem_cons,
      List.not_mem_nil, or_false] at hc
    rcases hc with h | rfl | h | rfl | (h | rfl | rfl)
    · exact (hst_good c h).1
    · decide
    · exact (hsrc_good c h).1
    · decide
    · exact (htc c h).1
    · decide
    · decide
  have hassoc : trackingFileName source t =
      ("storm-tracking".toList ++
        ('_' :: (source ++ ('_' :: unix_sec_to_string t)))) ++ ['.', 'p'] := by
    simp [trackingFileName, List.append_assoc]
  have h2 : splitextRoot (trackingFileName source t) =
      "storm-tracking".toList ++
        ('_' :: (source ++ ('_' :: unix_sec_to_string t))) := by
    rw [hassoc, splitextRoot_p]
  have h3 : lastAfterChar '_' ("storm-tracking".toList ++
      ('_' :: (source ++ ('_' :: unix_sec_to_string t)))) =
      unix_sec_to_string t := by
    rw [lastAfterChar_append_sep, lastAfterChar_append_sep]
    exact lastAfterChar_no_sep _ _ (fun c hc => (htc c hc).2.2)
  rw [processed_file_name_to_time, h1, h2, h3]
  exact time_string_round_trip t ht

/-- C10: for every valid time `t` (the years 1970-9999, on which
`%Y` is four digits), accepted data source, and positive tracking scale,
`processed_file_name_to_time` applied to the path returned by
`find_processed_file` with `raise_error_if_missing = False` returns `t`,
and with that flag `find_processed_file` never returns the missing-file
error, whatever the filesystem contains. -/
theorem C10_round_trip (top spc_date : List Char) (scale : ℚ)
    (source : List Char) (t : ℕ) (isfile : List Char → Bool)
    (ht : t < 253402300800) (hscale : 0 < scale)
    (hsource : source = SEGMOTION_SOURCE_ID ∨
      source = PROBSEVERE_SOURCE_ID) :
    (∃ p, find_processed_file top scale source t spc_date false isfile =
        Except.ok p ∧ processed_file_name_to_time p = t) ∧
    find_processed_file top scale source t spc_date false isfile ≠
      Except.error TrackingError.missingFile := by
  have hcheck : check_data_source source = true := by
    rcases hsource with rfl | rfl <;> decide
  have hok : find_processed_file top scale source t spc_date false isfile =
      Except.ok (processed_file_name top
        (if source = SEGMOTION_SOURCE_ID then spc_date
          else time_to_spc_date_string t)
        (roundHalfEven scale).toNat source t) := by
    rw [find_processed_file, if_pos hscale, if_pos hcheck]
    simp
  refine ⟨⟨_, hok, ?_⟩, ?_⟩
  · exact name_to_time_of_name _ _ _ _ _ ht hsource
  · rw [hok]
    simp

/-- Witness for C10 at the unit-test time 1506403233
("2017-09-26-052033"), segmotion source, tracking scale 155 m². -/
theorem C10_round_trip_witness :
    (∃ p, find_processed_file "top_dir".toList 155 SEGMOTION_SOURCE_ID
        1506403233 "20170926".toList false (fun _ => false) =
        Except.ok p ∧ processed_file_name_to_time p = 1506403233) ∧
    find_processed_file "top_dir".toList 155 SEGMOTION_SOURCE_ID
        1506403233 "20170926".toList false (fun _ => false) ≠
      Except.error TrackingError.missingFile :=
  C10_round_trip "top_dir".toList "20170926".toList 155
    SEGMOTION_SOURCE_ID 1506403233 (fun _ => false) (by norm_num)
    (by norm_num) (Or.inl rfl)
